import Mathlib

/-!
Shallow embedding of the go-user-api token-lifecycle subsystem and the
user-repository cache discipline, together with theorems checking the
specification's claims against it.

Source files embedded here:
* `internal/domain/entity` (`auth_entity.go`, user entity): data model.
* `internal/infrastructure/cache` (`redis.go`, `cache_interface.go`):
  key-value store adapter, modelled as an association list from keys to
  entries, with injectable per-key failures standing for network errors.
* token repository (`StoreAccessToken`/`StoreRefreshToken`/`storeToken`,
  `GetToken`, `DeleteToken`, `DeleteUserTokens`).
* `internal/domain/repository/user_repository.go` plus its Mongo helpers
  (`createUserMongo`, `getUserByIDMongo`, `updateUserMongo`, ...): the
  cache-aside user repository over a document store modelled as a list of
  user records.
* `internal/domain/service/token_service.go`: the PASETO token signer.
  The `o1egl/paseto` / `ed25519` primitive is an external library, so the
  signing core is modelled from the spec (see `pasetoSign`).
* the `utils` hasher wrappers (`HashPassword`, `CheckPasswordHash`):
  thin wrappers over `golang.org/x/crypto/bcrypt`; the wrappers are
  embedded, the external bcrypt primitive is modelled as an ideal salted
  one-way derivation (see `PasswordVal`).
* `internal/domain/usecase/auth_usecase.go` and `user_usecase.go`.

Go's `uuid.UUID` is modelled as `Nat` (opaque identifiers, `uuid.Nil = 0`);
`time.Time` and `time.Duration` as `Int` nanosecond counts; fallible Go
functions return `Except Err`.  Nondeterministic inputs of the code
(`uuid.New()`, `time.Now()`) are passed as explicit parameters.
-/

namespace GoUserApi

/-- `uuid.UUID`, modelled as an opaque natural-number identifier. -/
abbrev UUID := Nat

/-- `entity.TokenType`: the source's string constants `"access"`/`"refresh"`. -/
inductive TokenType where
  | access
  | refresh
deriving DecidableEq, Repr

/-- `entity.TokenDetails`: token metadata stored in the token store. -/
structure TokenDetails where
  TokenID : UUID
  UserID : UUID
  TokenType : TokenType
  Expiration : Int
deriving DecidableEq, Repr

/-- `service.TokenClaims`: the signed payload (jti, sub, type). -/
structure TokenClaims where
  TokenID : UUID
  UserID : UUID
  TokenType : TokenType
deriving DecidableEq, Repr

/-- The Go string held in `User.Password`.  A bcrypt digest
`$2a$cost$<salt><key>` is `bcrypt cost salt secret`: the salt is the random
draw of `bcrypt.GenerateFromPassword` (made explicit, like `uuid.New()`),
and the 31-character key — the one-way derivation from (salt, secret) by
the external `golang.org/x/crypto/bcrypt` primitive — is modelled ideally
as determined by exactly that pair, so two digests agree iff cost, salt and
secret agree (as for paseto, the primitive is an external library; only the
`utils` wrappers are repository code).  `raw s` is any non-digest string
(which `bcrypt.CompareHashAndPassword` rejects as malformed). -/
inductive PasswordVal where
  | bcrypt (cost : Nat) (salt : Nat) (secret : String)
  | raw (s : String)
deriving DecidableEq, Repr

/-- `entity.User` (the Mongo document).  Strings model the Go string fields;
the password-hash string is a `PasswordVal`; timestamps are `Int`
nanoseconds. -/
structure User where
  ID : UUID
  Email : String
  Username : String
  Password : PasswordVal
  FirstName : String
  LastName : String
  Role : String
  Status : String
  CreatedAt : Int
  UpdatedAt : Int
deriving DecidableEq, Repr

/-- `entity.NewUser`: builds a user with role `"user"`, status `"active"` and
both timestamps set to `now`.  `uuid.New()` is the explicit `freshId`; the
`password` argument is the already-hashed string the use case passes in. -/
def NewUser (email username : String) (password : PasswordVal)
    (firstName lastName : String)
    (freshId : UUID) (now : Int) : User :=
  { ID := freshId, Email := email, Username := username, Password := password,
    FirstName := firstName, LastName := lastName,
    Role := "user", Status := "active", CreatedAt := now, UpdatedAt := now }

/-- The error values the embedded code can return.  Domain errors mirror the
named Go error variables; `infra` stands for a wrapped infrastructure error
(`fmt.Errorf("...: %w", err)`), tagged with the source's message. -/
inductive Err where
  | invalidCredentials
  | userNotFound
  | emailExists
  | usernameExists
  | invalidToken
  | invalidRefreshToken
  | expiredToken
  | notActive
  | invalidStatus
  | infra (msg : String)
deriving DecidableEq, Repr

/-! ## Key-value store (Redis adapter)

The token repository and the user cache build Redis keys by string
formatting.  The formats — `"access_token:{id}"`, `"refresh_token:{id}"`,
`"user_tokens:{uid}:{type}:{id}"`, `"user:{id}"` — are prefix-distinct and
`uuid.String()` is injective, so keys are modelled as an inductive type with
one constructor per format. -/

/-- A Redis key, one constructor per key format used in the source.
`token ty id` covers both `"access_token:{id}"` (`ty = access`) and
`"refresh_token:{id}"` (`ty = refresh`), mirroring the prefix selection
`if tokenType == entity.AccessToken`. -/
inductive Key where
  | token (ty : TokenType) (id : UUID)
  | userTokens (uid : UUID) (ty : TokenType) (id : UUID)
  | user (id : UUID)
deriving DecidableEq, Repr

/-- A stored value.  `json.Marshal` of the two record types is modelled as an
injective constructor; `one` is the literal `[]byte("1")` written to the
per-user secondary index. -/
inductive CacheVal where
  | tokenJSON (d : TokenDetails)
  | userJSON (u : User)
  | one
deriving DecidableEq, Repr

/-- A cache entry: the stored bytes plus the time-to-live passed to `SET`
(nanoseconds; the adapter does not validate its sign). -/
structure CacheEntry where
  val : CacheVal
  ttl : Int
deriving DecidableEq, Repr

/-- An observable store operation, recorded in order of execution so that
intra-call ordering claims can be stated. -/
inductive CacheEvent where
  | setE (k : Key)
  | delE (k : Key)
deriving DecidableEq, Repr

/-- The key-value store state: entries plus the log of successful writes. -/
structure CacheState where
  entries : List (Key × CacheEntry)
  log : List CacheEvent
deriving DecidableEq, Repr

/-- Injectable failures of the Redis adapter, one flag per operation and key
(standing for network errors of the corresponding command). -/
structure CacheFx where
  failGet : Key → Bool
  failSet : Key → Bool
  failDelete : Key → Bool

/-- The adapter with no injected failures. -/
def noFailCache : CacheFx :=
  { failGet := fun _ => false, failSet := fun _ => false,
    failDelete := fun _ => false }

/-- Lookup of a key among the entries (first match). -/
def lookupEntry (l : List (Key × CacheEntry)) (k : Key) : Option CacheEntry :=
  match l with
  | [] => none
  | (k', e) :: rest => if k' = k then some e else lookupEntry rest k

/-- Removal of a key, as Redis `DEL` behaves. -/
def delEntry (l : List (Key × CacheEntry)) (k : Key) :
    List (Key × CacheEntry) :=
  match l with
  | [] => []
  | (k', e) :: rest => if k' = k then delEntry rest k else (k', e) :: delEntry rest k

/-- Overwriting insert, as Redis `SET` behaves. -/
def setEntry (l : List (Key × CacheEntry)) (k : Key) (e : CacheEntry) :
    List (Key × CacheEntry) :=
  (k, e) :: delEntry l k

/-- `RedisCache.Get`: a missing key is `nil, nil` (no error). -/
def cacheGet (fx : CacheFx) (s : CacheState) (k : Key) :
    Except Err (Option CacheVal) :=
  if fx.failGet k then .error (.infra "redis get")
  else .ok ((lookupEntry s.entries k).map (fun e => e.val))

/-- `RedisCache.Set` with an expiration, logging the write on success. -/
def cacheSet (fx : CacheFx) (s : CacheState) (k : Key) (v : CacheVal)
    (ttl : Int) : Except Err CacheState :=
  if fx.failSet k then .error (.infra "redis set")
  else .ok ⟨setEntry s.entries k ⟨v, ttl⟩, s.log ++ [.setE k]⟩

/-- `RedisCache.Delete`, logging the deletion on success. -/
def cacheDelete (fx : CacheFx) (s : CacheState) (k : Key) :
    Except Err CacheState :=
  if fx.failDelete k then .error (.infra "redis del")
  else .ok ⟨delEntry s.entries k, s.log ++ [.delE k]⟩

/-! ## Token Signer (`service/token_service.go`)

The service code in `src/` builds `TokenClaims`, hands them to
`paseto.NewV2().Sign(privateKey, claims, footer)` and verifies with
`v2.Verify(token, publicKey, &claims, &footer)`.  The `o1egl/paseto` /
`crypto/ed25519` primitive is an external library, absent from `src/`. -/

/-- Numeric code of a token type inside the modelled signed payload. -/
def typeCode : TokenType → Nat
  | .access => 0
  | .refresh => 1

/-- Inverse of `typeCode`; any other value is an unparseable claims payload. -/
def decodeType (n : Nat) : Option TokenType :=
  if n = 0 then some .access else if n = 1 then some .refresh else none

/-- The claims payload serialized as a symbol list (jti, sub, type). -/
def encodeClaims (c : TokenClaims) : List Nat :=
  [c.TokenID, c.UserID, typeCode c.TokenType]

/-- Injective encoding of a symbol list into one natural number. -/
def encodeList : List Nat → Nat
  | [] => 0
  | x :: xs => Nat.pair x (encodeList xs) + 1

/-- Modelled from the spec: the PASETO v2.public / ed25519 signing primitive
(`o1egl/paseto` and `crypto/ed25519`, external libraries not in `src/`).
Per spec §4.1 the signer produces a self-contained token whose claims
round-trip byte-exact and whose verification fails on malformed input,
signature mismatch or unparseable claims.  The token is the serialized
claims followed by a signature tag binding the key pair and the message
(an ideal deterministic signature); the constant `"kid"` footer of the
source is folded away since it never varies. -/
def pasetoSign (key : Nat) (c : TokenClaims) : List Nat :=
  encodeClaims c ++ [Nat.pair key (encodeList (encodeClaims c))]

/-- Modelled from the spec: PASETO v2 verification with the public half of
the same key pair.  Recomputes the signature tag over the transmitted
message and decodes the claims; anything else fails. -/
def pasetoVerify (key : Nat) (tok : List Nat) : Option TokenClaims :=
  match tok with
  | [jti, sub, ty, tag] =>
      if tag = Nat.pair key (encodeList [jti, sub, ty]) then
        (decodeType ty).map (fun t => ⟨jti, sub, t⟩)
      else none
  | _ => none

/-- `service.tokenService`: the fixed key pair (one symbolic identity for the
private/public halves) and the two configured token lifetimes
(nanoseconds). -/
structure TokenService where
  key : Nat
  accessDuration : Int
  refreshDuration : Int

/-- `tokenService.createToken`: signs the claims derived from the details.
(The source's sign error path cannot occur in the model.) -/
def createToken (svc : TokenService) (details : TokenDetails) : List Nat :=
  pasetoSign svc.key ⟨details.TokenID, details.UserID, details.TokenType⟩

/-- `tokenService.ValidateToken`: verify and return claims, else
`ErrInvalidToken`. -/
def svcValidateToken (svc : TokenService) (token : List Nat) :
    Except Err TokenClaims :=
  match pasetoVerify svc.key token with
  | some claims => .ok claims
  | none => .error .invalidToken

/-- `entity.AuthTokens`: the serialized pair plus access expiration. -/
structure AuthTokens where
  AccessToken : List Nat
  RefreshToken : List Nat
  ExpiresAt : Int
deriving DecidableEq, Repr

/-- `tokenService.GenerateTokens`: two fresh ids (`uuid.New()` passed as
`freshAccessId`/`freshRefreshId`), expirations `now + duration`, both
signed. -/
def GenerateTokens (svc : TokenService) (userID : UUID)
    (freshAccessId freshRefreshId : UUID) (now : Int) :
    AuthTokens × TokenDetails × TokenDetails :=
  let accessTokenDetails : TokenDetails :=
    ⟨freshAccessId, userID, .access, now + svc.accessDuration⟩
  let refreshTokenDetails : TokenDetails :=
    ⟨freshRefreshId, userID, .refresh, now + svc.refreshDuration⟩
  (⟨createToken svc accessTokenDetails, createToken svc refreshTokenDetails,
    accessTokenDetails.Expiration⟩,
   accessTokenDetails, refreshTokenDetails)

/-! ## Token Store (token repository over Redis) -/

/-- `tokenRepository.storeToken`: serialize the details, compute
`expiration := time.Until(details.Expiration) = details.Expiration - now`,
`SET` the primary key (failure is fatal), then `SET` the per-user secondary
index entry — a failure there is only logged (`log.Warn`) and the call still
succeeds.  `kind` is the prefix argument (`accessTokenPrefix` or
`refreshTokenPrefix`); note the secondary entry uses `details.TokenType`. -/
def storeToken (fx : CacheFx) (s : CacheState) (now : Int)
    (details : TokenDetails) (kind : TokenType) : Except Err CacheState :=
  let key := Key.token kind details.TokenID
  let expiration := details.Expiration - now
  match cacheSet fx s key (.tokenJSON details) expiration with
  | .error _ => .error (.infra "failed to store token")
  | .ok s1 =>
      let userTokensKey :=
        Key.userTokens details.UserID details.TokenType details.TokenID
      match cacheSet fx s1 userTokensKey .one expiration with
      | .error _ => .ok s1
      | .ok s2 => .ok s2

/-- `tokenRepository.StoreAccessToken`. -/
def StoreAccessToken (fx : CacheFx) (s : CacheState) (now : Int)
    (details : TokenDetails) : Except Err CacheState :=
  storeToken fx s now details .access

/-- `tokenRepository.StoreRefreshToken`. -/
def StoreRefreshToken (fx : CacheFx) (s : CacheState) (now : Int)
    (details : TokenDetails) : Except Err CacheState :=
  storeToken fx s now details .refresh

/-- `tokenRepository.GetToken`: `GET` the primary key; a missing key is
`nil, nil`; a present value is unmarshalled (a non-`TokenDetails` payload is
the unmarshal-failure path). -/
def GetToken (fx : CacheFx) (s : CacheState) (tokenID : UUID)
    (tokenType : TokenType) : Except Err (Option TokenDetails) :=
  match cacheGet fx s (Key.token tokenType tokenID) with
  | .error _ => .error (.infra "failed to get token")
  | .ok none => .ok none
  | .ok (some (.tokenJSON details)) => .ok (some details)
  | .ok (some _) => .error (.infra "failed to unmarshal token details")

/-- `tokenRepository.DeleteToken`: fetch first (to learn the user id); if the
fetch errors or finds nothing, return success ("nothing to delete"); else
`DEL` the primary key (failure fatal) and then the secondary index entry
(failure only logged). -/
def DeleteToken (fx : CacheFx) (s : CacheState) (tokenID : UUID)
    (tokenType : TokenType) : Except Err CacheState :=
  match GetToken fx s tokenID tokenType with
  | .error _ => .ok s
  | .ok none => .ok s
  | .ok (some token) =>
      match cacheDelete fx s (Key.token tokenType tokenID) with
      | .error _ => .error (.infra "failed to delete token")
      | .ok s1 =>
          match cacheDelete fx s1
              (Key.userTokens token.UserID tokenType tokenID) with
          | .error _ => .ok s1
          | .ok s2 => .ok s2

/-- `tokenRepository.DeleteUserTokens`: the source logs its intent, notes
"For simplicity ... In a real implementation with Redis, you would use SCAN
and DEL. Here we'll just return nil" — and returns `nil` without touching
the store. -/
def DeleteUserTokens (_fx : CacheFx) (s : CacheState) (_userID : UUID) :
    Except Err CacheState :=
  .ok s

/-! ## Document store (Mongo adapter) and user repository -/

/-- The Mongo `users` collection, modelled as the list of documents in
natural order. -/
abbrev Db := List User

/-- Injectable failures of the document-store adapter, one flag per
operation (standing for driver/network errors). -/
structure DbFx where
  failFindId : Bool
  failFindEmail : Bool
  failFindUsername : Bool
  failInsert : Bool
  failUpdate : Bool
  failDelete : Bool

/-- The document store with no injected failures. -/
def noFailDb : DbFx :=
  { failFindId := false, failFindEmail := false, failFindUsername := false,
    failInsert := false, failUpdate := false, failDelete := false }

/-- `FindOne({_id: id})`: first document with the id, `ErrNoDocuments ↦ none`. -/
def findById (db : Db) (id : UUID) : Option User :=
  match db with
  | [] => none
  | u :: rest => if u.ID = id then some u else findById rest id

/-- `FindOne({email: email})`. -/
def findByEmail (db : Db) (email : String) : Option User :=
  match db with
  | [] => none
  | u :: rest => if u.Email = email then some u else findByEmail rest email

/-- `FindOne({username: username})`. -/
def findByUsername (db : Db) (username : String) : Option User :=
  match db with
  | [] => none
  | u :: rest =>
      if u.Username = username then some u else findByUsername rest username

/-- `updateUserMongo`: `$set` of email, username, names, role, status and
`updated_at` (NOT password or created_at) on documents matching the id. -/
def updateUserDb (db : Db) (user : User) : Db :=
  db.map (fun u =>
    if u.ID = user.ID then
      { u with
        Email := user.Email, Username := user.Username,
        FirstName := user.FirstName, LastName := user.LastName,
        Role := user.Role, Status := user.Status,
        UpdatedAt := user.UpdatedAt }
    else u)

/-- `changePasswordMongo`: `$set` of password and `updated_at := time.Now()`. -/
def changePasswordDb (db : Db) (id : UUID) (hashedPassword : PasswordVal)
    (now : Int) : Db :=
  db.map (fun u =>
    if u.ID = id then { u with Password := hashedPassword, UpdatedAt := now }
    else u)

/-- `updateStatusMongo`: `$set` of status and `updated_at := time.Now()`. -/
def updateStatusDb (db : Db) (id : UUID) (status : String) (now : Int) : Db :=
  db.map (fun u =>
    if u.ID = id then { u with Status := status, UpdatedAt := now } else u)

/-- `deleteUserMongo`: `DeleteOne({_id: id})` removes the first match. -/
def deleteUserDb (db : Db) (id : UUID) : Db :=
  match db with
  | [] => []
  | u :: rest => if u.ID = id then rest else u :: deleteUserDb rest id

/-- The fixed user-cache time-to-live, `30 * time.Minute` in nanoseconds. -/
def userCacheTTL : Int := 1800000000000

/-- `userRepository.GetByID` (cache-aside read): on a cache hit that
unmarshals, return it without touching the store; on miss, error or
unmarshal failure fall through to Mongo; a found user is written to the
cache with `userCacheTTL` (a cache-write failure is only logged). -/
def repoGetByID (dfx : DbFx) (cfx : CacheFx) (db : Db) (s : CacheState)
    (id : UUID) : Except Err (Option User × CacheState) :=
  let cacheKey := Key.user id
  let cached : Option User :=
    match cacheGet cfx s cacheKey with
    | .ok (some (.userJSON u)) => some u
    | _ => none
  match cached with
  | some u => .ok (some u, s)
  | none =>
      if dfx.failFindId then .error (.infra "failed to get user")
      else
        match findById db id with
        | none => .ok (none, s)
        | some u =>
            match cacheSet cfx s cacheKey (.userJSON u) userCacheTTL with
            | .ok s1 => .ok (some u, s1)
            | .error _ => .ok (some u, s)

/-- `userRepository.GetByEmail`: straight to Mongo, no cache. -/
def repoGetByEmail (dfx : DbFx) (db : Db) (email : String) :
    Except Err (Option User) :=
  if dfx.failFindEmail then .error (.infra "failed to get user by email")
  else .ok (findByEmail db email)

/-- `userRepository.GetByUsername`: straight to Mongo, no cache. -/
def repoGetByUsername (dfx : DbFx) (db : Db) (username : String) :
    Except Err (Option User) :=
  if dfx.failFindUsername then .error (.infra "failed to get user by username")
  else .ok (findByUsername db username)

/-- `userRepository.Create`: Mongo insert only; the cache is untouched. -/
def repoCreate (dfx : DbFx) (db : Db) (user : User) : Except Err Db :=
  if dfx.failInsert then .error (.infra "failed to create user")
  else .ok (db ++ [user])

/-- `userRepository.Update`: Mongo update first; on success the cache entry
is REWRITTEN (`cache.Set`) from the in-memory `user` argument — not
invalidated; a cache-write failure is only logged. -/
def repoUpdate (dfx : DbFx) (cfx : CacheFx) (db : Db) (s : CacheState)
    (user : User) : Except Err (Db × CacheState) :=
  if dfx.failUpdate then .error (.infra "failed to update user")
  else
    let db1 := updateUserDb db user
    let cacheKey := Key.user user.ID
    match cacheSet cfx s cacheKey (.userJSON user) userCacheTTL with
    | .ok s1 => .ok (db1, s1)
    | .error _ => .ok (db1, s)

/-- `userRepository.Delete`: Mongo delete first; on success the cache entry
is deleted (failure only logged). -/
def repoDelete (dfx : DbFx) (cfx : CacheFx) (db : Db) (s : CacheState)
    (id : UUID) : Except Err (Db × CacheState) :=
  if dfx.failDelete then .error (.infra "failed to delete user")
  else
    let db1 := deleteUserDb db id
    match cacheDelete cfx s (Key.user id) with
    | .ok s1 => .ok (db1, s1)
    | .error _ => .ok (db1, s)

/-- `userRepository.ChangePassword`: Mongo update first; on success the
cache entry is invalidated (deleted; failure only logged). -/
def repoChangePassword (dfx : DbFx) (cfx : CacheFx) (db : Db) (s : CacheState)
    (id : UUID) (hashedPassword : PasswordVal) (now : Int) :
    Except Err (Db × CacheState) :=
  if dfx.failUpdate then .error (.infra "failed to change password")
  else
    let db1 := changePasswordDb db id hashedPassword now
    match cacheDelete cfx s (Key.user id) with
    | .ok s1 => .ok (db1, s1)
    | .error _ => .ok (db1, s)

/-- `userRepository.UpdateStatus`: Mongo update first; on success the cache
entry is invalidated (deleted; failure only logged). -/
def repoUpdateStatus (dfx : DbFx) (cfx : CacheFx) (db : Db) (s : CacheState)
    (id : UUID) (status : String) (now : Int) :
    Except Err (Db × CacheState) :=
  if dfx.failUpdate then .error (.infra "failed to update status")
  else
    let db1 := updateStatusDb db id status now
    match cacheDelete cfx s (Key.user id) with
    | .ok s1 => .ok (db1, s1)
    | .error _ => .ok (db1, s)

/-! ## Credential hasher (`utils` package, `src/unnamed/part_011`)

The wrappers are repository code:
`HashPassword(password) (string, error)` returns
`bcrypt.GenerateFromPassword([]byte(password), 12)`, and
`CheckPasswordHash(password, hash) bool` returns
`bcrypt.CompareHashAndPassword([]byte(hash), []byte(password)) == nil`.
The bcrypt primitive itself (`golang.org/x/crypto/bcrypt`) is an external
library, modelled ideally through `PasswordVal`: `GenerateFromPassword`
rejects a password longer than 72 bytes with an error and otherwise
produces the digest of (cost, fresh random salt, password);
`CompareHashAndPassword` re-derives the key from the digest's salt and the
candidate password (which fails, giving a non-nil error, for a candidate
over 72 bytes or a malformed digest) and compares. -/

/-- `utils.HashPassword` (part_011): bcrypt at cost 12 over the secret with
a fresh random salt (explicit `salt` parameter); the bcrypt error for a
secret longer than 72 bytes is returned to the caller. -/
def HashPassword (password : String) (salt : Nat) :
    Except Err PasswordVal :=
  if password.utf8ByteSize > 72 then
    .error (.infra "bcrypt: password length exceeds 72 bytes")
  else .ok (.bcrypt 12 salt password)

/-- `utils.CheckPasswordHash` (part_011): true exactly when
`bcrypt.CompareHashAndPassword` returns nil — the stored value is a
well-formed digest, the candidate is hashable (≤ 72 bytes) and the key
re-derived from the digest's salt and the candidate matches. -/
def CheckPasswordHash (password : String) (hash : PasswordVal) : Bool :=
  match hash with
  | .bcrypt _ _ secret =>
      decide (secret = password) && decide (password.utf8ByteSize ≤ 72)
  | .raw _ => false

/-! ## Use cases (`usecase/auth_usecase.go`, `usecase/user_usecase.go`) -/

/-- `entity.LoginResponse`. -/
structure LoginResponse where
  User : User
  AuthTokens : AuthTokens
deriving DecidableEq, Repr

/-- `authUseCase.Login`: look the user up by email (errors propagate; absent
user ⇒ `ErrInvalidCredentials`), check the password hash (mismatch ⇒
`ErrInvalidCredentials`), generate a pair and store both tokens (store
failures are fatal and wrapped).  NOTE: the source performs no user-status
check here. -/
def authLogin (dfx : DbFx) (cfx : CacheFx) (svc : TokenService) (db : Db)
    (s : CacheState) (email password : String)
    (freshAccessId freshRefreshId : UUID) (now : Int) :
    Except Err (LoginResponse × CacheState) :=
  match repoGetByEmail dfx db email with
  | .error e => .error e
  | .ok none => .error .invalidCredentials
  | .ok (some user) =>
      if ¬ CheckPasswordHash password user.Password then
        .error .invalidCredentials
      else
        let (tokens, accessDetails, refreshDetails) :=
          GenerateTokens svc user.ID freshAccessId freshRefreshId now
        match StoreAccessToken cfx s now accessDetails with
        | .error _ => .error (.infra "failed to store access token")
        | .ok s1 =>
            match StoreRefreshToken cfx s1 now refreshDetails with
            | .error _ => .error (.infra "failed to store refresh token")
            | .ok s2 => .ok (⟨user, tokens⟩, s2)

/-- `authUseCase.Logout`: delete the access token only (failure wrapped). -/
def authLogout (cfx : CacheFx) (s : CacheState) (tokenID : UUID) :
    Except Err CacheState :=
  match DeleteToken cfx s tokenID .access with
  | .error _ => .error (.infra "failed to delete access token")
  | .ok s1 => .ok s1

/-- `authUseCase.RefreshToken`: verify the string (any failure ⇒
`ErrInvalidRefreshToken`), require the refresh kind, require a live store
record (absent ⇒ `ErrInvalidRefreshToken`), generate and store a new pair,
then delete the consumed refresh token — a deletion failure is only logged
(`log.Warn`) and the new pair is returned anyway. -/
def authRefreshToken (cfx : CacheFx) (svc : TokenService) (s : CacheState)
    (refreshToken : List Nat) (freshAccessId freshRefreshId : UUID)
    (now : Int) : Except Err (AuthTokens × CacheState) :=
  match svcValidateToken svc refreshToken with
  | .error _ => .error .invalidRefreshToken
  | .ok claims =>
      if claims.TokenType ≠ .refresh then .error .invalidRefreshToken
      else
        match GetToken cfx s claims.TokenID .refresh with
        | .error _ => .error (.infra "failed to get refresh token")
        | .ok none => .error .invalidRefreshToken
        | .ok (some _) =>
            let (tokens, accessDetails, refreshDetails) :=
              GenerateTokens svc claims.UserID freshAccessId freshRefreshId now
            match StoreAccessToken cfx s now accessDetails with
            | .error _ => .error (.infra "failed to store new access token")
            | .ok s1 =>
                match StoreRefreshToken cfx s1 now refreshDetails with
                | .error _ =>
                    .error (.infra "failed to store new refresh token")
                | .ok s2 =>
                    match DeleteToken cfx s2 claims.TokenID .refresh with
                    | .error _ => .ok (tokens, s2)
                    | .ok s3 => .ok (tokens, s3)

/-- `authUseCase.LogoutAll`: delegate to `DeleteUserTokens` (failure
wrapped). -/
def authLogoutAll (cfx : CacheFx) (s : CacheState) (userID : UUID) :
    Except Err CacheState :=
  match DeleteUserTokens cfx s userID with
  | .error _ => .error (.infra "failed to delete all user tokens")
  | .ok s1 => .ok s1

/-- `authUseCase.ValidateToken`: verify (failure ⇒ `ErrInvalidToken`),
require the access kind, require a live store record (absent ⇒
`ErrInvalidToken`), return the owning user id. -/
def authValidateToken (cfx : CacheFx) (svc : TokenService) (s : CacheState)
    (token : List Nat) : Except Err UUID :=
  match svcValidateToken svc token with
  | .error _ => .error .invalidToken
  | .ok claims =>
      if claims.TokenType ≠ .access then .error .invalidToken
      else
        match GetToken cfx s claims.TokenID .access with
        | .error _ => .error (.infra "failed to get access token")
        | .ok none => .error .invalidToken
        | .ok (some _) => .ok claims.UserID

/-- `userUseCase.Register`: the duplicate checks fire only when
`err == nil && existingUser != nil` — a lookup ERROR is discarded and
registration proceeds to hash the password (a hash error is returned
as-is), build the user (`entity.NewUser`) and insert it.  `salt` is the
random salt bcrypt draws inside `utils.HashPassword`. -/
def Register (dfx : DbFx) (db : Db)
    (email username password firstName lastName : String)
    (salt : Nat) (freshId : UUID) (now : Int) : Except Err (User × Db) :=
  match repoGetByEmail dfx db email with
  | .ok (some _) => .error .emailExists
  | _ =>
      match repoGetByUsername dfx db username with
      | .ok (some _) => .error .usernameExists
      | _ =>
          match HashPassword password salt with
          | .error e => .error e
          | .ok hashedPassword =>
              let user := NewUser email username hashedPassword firstName
                lastName freshId now
              match repoCreate dfx db user with
              | .error e => .error e
              | .ok db1 => .ok (user, db1)

/-- `userUseCase.Authenticate`: lookup by email (errors propagate; absent ⇒
`ErrInvalidCredentials`), reject a non-active status with the ad-hoc error
`"user account is not active"`, then check the hash (mismatch ⇒
`ErrInvalidCredentials`). -/
def Authenticate (dfx : DbFx) (db : Db) (email password : String) :
    Except Err User :=
  match repoGetByEmail dfx db email with
  | .error e => .error e
  | .ok none => .error .invalidCredentials
  | .ok (some user) =>
      if user.Status ≠ "active" then .error .notActive
      else if ¬ CheckPasswordHash password user.Password then
        .error .invalidCredentials
      else .ok user

/-! ## Concrete fixtures (used by the witness and counterexample theorems) -/

/-- A concrete token service: key pair 5, 60ns access / 3600ns refresh
lifetimes (the durations' magnitudes are irrelevant to the claims). -/
def svc0 : TokenService := ⟨5, 60, 3600⟩

/-- A concrete stored access token: id 10, owned by user 1. -/
def d0 : TokenDetails := ⟨10, 1, .access, 1000⟩

/-- A store holding exactly the access-token record `d0`. -/
def s0 : CacheState := ⟨[(Key.token .access 10, ⟨.tokenJSON d0, 50⟩)], []⟩

/-- A concrete stored refresh token: id 20, owned by user 1. -/
def rd0 : TokenDetails := ⟨20, 1, .refresh, 5000⟩

/-- A store holding exactly the refresh-token record `rd0`. -/
def rs0 : CacheState := ⟨[(Key.token .refresh 20, ⟨.tokenJSON rd0, 900⟩)], []⟩

/-- A concrete active user whose password `"pw"` was hashed with salt 7. -/
def activeUser : User :=
  ⟨1, "a@x.io", "alice", .bcrypt 12 7 "pw", "A", "L", "user", "active", 0, 0⟩

/-- The same account but with status `"inactive"`. -/
def inactiveUser : User :=
  { activeUser with Status := "inactive" }

/-- The document-store failure pattern of claim C10: both duplicate-check
lookups fail with an infrastructure error. -/
def regFailFx : DbFx :=
  { noFailDb with failFindEmail := true, failFindUsername := true }

/-- `activeUser` as the update use case would hand it to
`userRepository.Update`: first name edited, `UpdatedAt` refreshed. -/
def updatedUser : User :=
  { activeUser with FirstName := "Z", UpdatedAt := 5 }

/-- An adapter whose `DEL` fails on exactly one key (a network error of
that one command), used to analyse the refresh flow when the final
revocation fails. -/
def failDeleteOn (k0 : Key) : CacheFx :=
  { failGet := fun _ => false, failSet := fun _ => false,
    failDelete := fun k => decide (k = k0) }

/-! ## Helper lemmas -/

@[simp]
theorem lookupEntry_del_self (l : List (Key × CacheEntry)) (k : Key) :
    lookupEntry (delEntry l k) k = none := by
  induction l with
  | nil => simp [delEntry, lookupEntry]
  | cons p rest ih =>
      by_cases hp : p.1 = k
      · simpa [delEntry, hp] using ih
      · simpa [delEntry, lookupEntry, hp] using ih

@[simp]
theorem lookupEntry_del_ne (l : List (Key × CacheEntry)) (k k' : Key)
    (h : k' ≠ k) : lookupEntry (delEntry l k) k' = lookupEntry l k' := by
  induction l with
  | nil => simp [delEntry]
  | cons p rest ih =>
      have hkk : ¬ k = k' := fun e => h (Eq.symm e)
      by_cases hp : p.1 = k
      · have hne : ¬ p.1 = k' := fun hk => h (hk ▸ hp)
        simp [delEntry, lookupEntry, hp, hne, hkk, ih]
      · by_cases hk' : p.1 = k'
        · simp [delEntry, lookupEntry, hp, hk', h]
        · simp [delEntry, lookupEntry, hp, hk', ih]

@[simp]
theorem lookupEntry_set_self (l : List (Key × CacheEntry)) (k : Key)
    (e : CacheEntry) : lookupEntry (setEntry l k e) k = some e := by
  simp [setEntry, lookupEntry]

@[simp]
theorem lookupEntry_set_ne (l : List (Key × CacheEntry)) (k k' : Key)
    (e : CacheEntry) (h : k' ≠ k) :
    lookupEntry (setEntry l k e) k' = lookupEntry l k' := by
  have hk : ¬ (k = k') := fun hk => h (Eq.symm hk)
  simp [setEntry, lookupEntry, hk, lookupEntry_del_ne l k k' h]

theorem encodeList_injective : Function.Injective encodeList := by
  intro xs
  induction xs with
  | nil =>
      intro ys h
      cases ys with
      | nil => rfl
      | cons y ys => simp [encodeList] at h
  | cons x xs ih =>
      intro ys h
      cases ys with
      | nil => simp [encodeList] at h
      | cons y ys =>
          simp only [encodeList, Nat.add_right_cancel_iff] at h
          obtain ⟨h1, h2⟩ := Nat.pair_eq_pair.mp h
          exact h1 ▸ congrArg (List.cons x) (ih h2)

/-- Signature tags of distinct messages differ (ideal-signature model). -/
theorem tag_ne_of_msg_ne (key : Nat) {m m' : List Nat} (h : m ≠ m') :
    Nat.pair key (encodeList m) ≠ Nat.pair key (encodeList m') :=
  fun he => h (encodeList_injective (Nat.pair_eq_pair.mp he).2)

/-- Sign→verify round-trip at the service level (shared helper). -/
theorem svcValidateToken_createToken (svc : TokenService) (d : TokenDetails) :
    svcValidateToken svc (createToken svc d) =
      .ok ⟨d.TokenID, d.UserID, d.TokenType⟩ := by
  cases h : d.TokenType <;>
    simp [svcValidateToken, createToken, pasetoSign, pasetoVerify,
      encodeClaims, typeCode, decodeType, h]

/-- Result of `DeleteToken` under a failure-free adapter, by store content:
a present, well-formed record is removed from both the primary key space and
the secondary index; anything else leaves the state untouched and still
succeeds. -/
theorem DeleteToken_noFail (s : CacheState) (id : UUID) (ty : TokenType) :
    DeleteToken noFailCache s id ty =
      match lookupEntry s.entries (Key.token ty id) with
      | some ⟨.tokenJSON d, _⟩ =>
          .ok ⟨delEntry (delEntry s.entries (Key.token ty id))
                 (Key.userTokens d.UserID ty id),
               (s.log ++ [.delE (Key.token ty id)]) ++
                 [.delE (Key.userTokens d.UserID ty id)]⟩
      | _ => .ok s := by
  rcases hl : lookupEntry s.entries (Key.token ty id) with _ | e
  · simp [DeleteToken, GetToken, cacheGet, noFailCache, hl]
  · rcases e with ⟨v, ttl⟩
    cases v <;>
      simp [DeleteToken, GetToken, cacheGet, cacheDelete, noFailCache, hl]

/-! ## Claim C1 -/

/-- C1: the claim says `LogoutAll` (via `DeleteUserTokens`) removes every
token record of the user so that `validateAccess` then fails with
`InvalidToken`.  The code contradicts it (and its own doc comment
"deletes all tokens for a user"): `DeleteUserTokens` returns `nil` without
touching the store, so `LogoutAll` succeeds as a no-op and a previously
stored access token of that user still validates afterwards.  This theorem
evaluates the code at the failing input: user 1 with stored access token
`d0`; after `LogoutAll(1)` the state is unchanged and `ValidateToken` on
the token still returns user 1 instead of failing. -/
theorem C1_logoutAll_is_noop_and_token_still_validates :
    (∀ (fx : CacheFx) (s : CacheState) (uid : UUID),
        DeleteUserTokens fx s uid = .ok s) ∧
    authLogoutAll noFailCache s0 1 = .ok s0 ∧
    authValidateToken noFailCache svc0 s0 (createToken svc0 d0) = .ok 1 :=
  ⟨fun _ _ _ => rfl, rfl, rfl⟩

/-! ## Claim C5 -/

/-- C5 counterexample: the claim says storing a `TokenDetails` whose
time-to-live `details.Expiration - now` is ≤ 0 fails fast with
`ExpiredToken` and writes nothing.  At the concrete input
`now = 100`, `Expiration = 50` (ttl = −50), `storeToken` instead returns
success and writes both the primary entry and the secondary-index entry,
each with ttl −50. -/
theorem C5_counterexample_dead_entry_stored :
    storeToken noFailCache ⟨[], []⟩ 100 ⟨1, 2, .access, 50⟩ .access =
      .ok ⟨[(Key.userTokens 2 .access 1, ⟨.one, -50⟩),
            (Key.token .access 1, ⟨.tokenJSON ⟨1, 2, .access, 50⟩, -50⟩)],
           [.setE (Key.token .access 1), .setE (Key.userTokens 2 .access 1)]⟩ :=
  rfl

/-- C5 amended: `storeToken` computes the ttl as
`details.Expiration - now` and passes it to the cache unconditionally;
a non-positive ttl is not rejected — the call succeeds (never
`ExpiredToken`) and the dead entry is written with that ttl. -/
theorem C5_storeToken_accepts_nonpositive_ttl (s : CacheState) (now : Int)
    (d : TokenDetails) (kind : TokenType) (_h : d.Expiration - now ≤ 0) :
    storeToken noFailCache s now d kind ≠ .error .expiredToken ∧
    ∃ s', storeToken noFailCache s now d kind = .ok s' ∧
      lookupEntry s'.entries (Key.token kind d.TokenID) =
        some ⟨.tokenJSON d, d.Expiration - now⟩ := by
  have hrun : storeToken noFailCache s now d kind =
      .ok ⟨setEntry (setEntry s.entries (Key.token kind d.TokenID)
              ⟨.tokenJSON d, d.Expiration - now⟩)
             (Key.userTokens d.UserID d.TokenType d.TokenID)
             ⟨.one, d.Expiration - now⟩,
           (s.log ++ [.setE (Key.token kind d.TokenID)]) ++
             [.setE (Key.userTokens d.UserID d.TokenType d.TokenID)]⟩ := by
    simp [storeToken, cacheSet, noFailCache]
  refine ⟨by simp [hrun], _, hrun, ?_⟩
  rw [lookupEntry_set_ne _ _ _ _ (by simp), lookupEntry_set_self]

/-- C5 witness: the amended theorem at ttl = −50. -/
theorem C5_witness :
    ((⟨1, 2, .access, 50⟩ : TokenDetails).Expiration - 100 ≤ 0) ∧
    (storeToken noFailCache ⟨[], []⟩ 100 ⟨1, 2, .access, 50⟩ .access ≠
        .error .expiredToken ∧
      ∃ s', storeToken noFailCache ⟨[], []⟩ 100 ⟨1, 2, .access, 50⟩ .access =
          .ok s' ∧
        lookupEntry s'.entries (Key.token .access 1) =
          some ⟨.tokenJSON ⟨1, 2, .access, 50⟩, -50⟩) :=
  ⟨by decide,
   C5_storeToken_accepts_nonpositive_ttl ⟨[], []⟩ 100 ⟨1, 2, .access, 50⟩
     .access (by decide)⟩

/-! ## Claim C9 -/

/-- C9: `DeleteToken` (revoke) on a token absent from the store returns
success and leaves the store untouched, and revoking twice is the same as
revoking once: whatever state the first failure-free revocation produces,
a second identical revocation returns exactly that state and succeeds. -/
theorem C9_deleteToken_absent_ok_and_idempotent :
    (∀ (s : CacheState) (id : UUID) (ty : TokenType),
        lookupEntry s.entries (Key.token ty id) = none →
        DeleteToken noFailCache s id ty = .ok s) ∧
    (∀ (s : CacheState) (id : UUID) (ty : TokenType) (s1 : CacheState),
        DeleteToken noFailCache s id ty = .ok s1 →
        DeleteToken noFailCache s1 id ty = .ok s1) := by
  constructor
  · intro s id ty h
    rw [DeleteToken_noFail, h]
  · intro s id ty s1 h
    rw [DeleteToken_noFail] at h
    rcases hl : lookupEntry s.entries (Key.token ty id) with _ | ⟨v, ttl⟩
    · rw [hl] at h
      cases h
      rw [DeleteToken_noFail, hl]
    · cases v with
      | tokenJSON d =>
          rw [hl] at h
          cases h
          rw [DeleteToken_noFail]
          have : lookupEntry
              (delEntry (delEntry s.entries (Key.token ty id))
                (Key.userTokens d.UserID ty id))
              (Key.token ty id) = none := by
            rw [lookupEntry_del_ne _ _ _ (by simp), lookupEntry_del_self]
          rw [this]
      | userJSON u =>
          rw [hl] at h
          cases h
          rw [DeleteToken_noFail, hl]
      | one =>
          rw [hl] at h
          cases h
          rw [DeleteToken_noFail, hl]

/-- C9 witness: revoking the absent token (id 99, access) in the store
`rs0` succeeds without change, and revoking the present token 20 twice
equals revoking it once. -/
theorem C9_witness :
    (lookupEntry rs0.entries (Key.token .access 99) = none ∧
      DeleteToken noFailCache rs0 99 .access = .ok rs0) ∧
    (DeleteToken noFailCache rs0 20 .refresh =
        .ok ⟨[], [.delE (Key.token .refresh 20),
                  .delE (Key.userTokens 1 .refresh 20)]⟩ ∧
      DeleteToken noFailCache
          ⟨[], [.delE (Key.token .refresh 20),
                .delE (Key.userTokens 1 .refresh 20)]⟩ 20 .refresh =
        .ok ⟨[], [.delE (Key.token .refresh 20),
                  .delE (Key.userTokens 1 .refresh 20)]⟩) :=
  ⟨⟨rfl, C9_deleteToken_absent_ok_and_idempotent.1 rs0 99 .access rfl⟩,
   ⟨rfl, C9_deleteToken_absent_ok_and_idempotent.2 rs0 20 .refresh _ rfl⟩⟩

/-! ## Claim C10 -/

/-- C10 (implicit): in `Register` the duplicate checks fire only on
`err == nil && existingUser != nil`, so when the email and username lookups
fail with a store error the error is silently discarded and registration
proceeds: it hashes the password (which succeeds for any password of at
most 72 bytes — the only bcrypt failure the wrapper can return), builds the
user and inserts it — for ANY database content, including one already
containing the email. -/
theorem C10_register_swallows_lookup_errors (db : Db)
    (email username password firstName lastName : String)
    (salt : Nat) (freshId : UUID) (now : Int)
    (hlen : password.utf8ByteSize ≤ 72) :
    Register regFailFx db email username password firstName lastName salt
        freshId now =
      .ok (NewUser email username (.bcrypt 12 salt password) firstName
            lastName freshId now,
          db ++ [NewUser email username (.bcrypt 12 salt password) firstName
            lastName freshId now]) := by
  have hh : ¬ password.utf8ByteSize > 72 := by omega
  simp [Register, repoGetByEmail, repoGetByUsername, repoCreate, regFailFx,
    noFailDb, HashPassword, hh]

/-- C10 witness: registering `"bob@x.io"`/`"bob"` with password `"pw"` while
both duplicate lookups fail, against a database already containing that
very email — the lookup failure is discarded and the user is inserted. -/
theorem C10_witness :
    ("pw".utf8ByteSize ≤ 72) ∧
    Register regFailFx [{ activeUser with Email := "bob@x.io" }] "bob@x.io"
        "bob" "pw" "B" "O" 9 77 3 =
      .ok (NewUser "bob@x.io" "bob" (.bcrypt 12 9 "pw") "B" "O" 77 3,
          [{ activeUser with Email := "bob@x.io" },
           NewUser "bob@x.io" "bob" (.bcrypt 12 9 "pw") "B" "O" 77 3]) :=
  ⟨by decide,
   C10_register_swallows_lookup_errors
     [{ activeUser with Email := "bob@x.io" }] "bob@x.io" "bob" "pw" "B" "O"
     9 77 3 (by decide)⟩

/-! ## Claim C8 -/

/-- C8: sign→verify is the identity on claims — `ValidateToken` applied to
`createToken`'s output returns exactly the claims that were signed (for
every key pair and every `TokenDetails`, whose projection ranges over all
valid claims) — and mutating any single symbol of a signed token makes
`ValidateToken` fail with `InvalidToken`.  The PASETO/ed25519 primitive is
external to `src/` and modelled from the spec as an ideal signature
(`pasetoSign`/`pasetoVerify`); a "single-byte mutation" is the replacement
of one position of the serialized token by a different value. -/
theorem C8_roundtrip_and_single_mutation_fails :
    (∀ (svc : TokenService) (d : TokenDetails),
        svcValidateToken svc (createToken svc d) =
          .ok ⟨d.TokenID, d.UserID, d.TokenType⟩) ∧
    (∀ (svc : TokenService) (d : TokenDetails) (i v : Nat),
        i < (createToken svc d).length →
        v ≠ (createToken svc d).getD i 0 →
        svcValidateToken svc ((createToken svc d).set i v) =
          .error .invalidToken) := by
  refine ⟨svcValidateToken_createToken, ?_⟩
  intro svc d i v hi hv
  have hc : createToken svc d =
      [d.TokenID, d.UserID, typeCode d.TokenType,
       Nat.pair svc.key
         (encodeList [d.TokenID, d.UserID, typeCode d.TokenType])] := by
    simp [createToken, pasetoSign, encodeClaims]
  rw [hc] at hi hv ⊢
  simp only [List.length_cons, List.length_nil] at hi
  interval_cases i
  · simp only [List.getD, List.get?, Option.getD] at hv
    simp [List.set, svcValidateToken, pasetoVerify,
      @tag_ne_of_msg_ne svc.key
        [d.TokenID, d.UserID, typeCode d.TokenType]
        [v, d.UserID, typeCode d.TokenType] (by simp [Ne.symm hv])]
  · simp only [List.getD, List.get?, Option.getD] at hv
    simp [List.set, svcValidateToken, pasetoVerify,
      @tag_ne_of_msg_ne svc.key
        [d.TokenID, d.UserID, typeCode d.TokenType]
        [d.TokenID, v, typeCode d.TokenType] (by simp [Ne.symm hv])]
  · simp only [List.getD, List.get?, Option.getD] at hv
    simp [List.set, svcValidateToken, pasetoVerify,
      @tag_ne_of_msg_ne svc.key
        [d.TokenID, d.UserID, typeCode d.TokenType]
        [d.TokenID, d.UserID, v] (by simp [Ne.symm hv])]
  · simp only [List.getD, List.get?, Option.getD] at hv
    simp [List.set, svcValidateToken, pasetoVerify, hv]

/-- C8 witness: the round-trip at the concrete service `svc0` and details
`d0`, and a concrete single-symbol mutation (position 1 set to 999) that
fails verification. -/
theorem C8_witness :
    svcValidateToken svc0 (createToken svc0 d0) = .ok ⟨10, 1, .access⟩ ∧
    (1 < (createToken svc0 d0).length ∧
      (999 : Nat) ≠ (createToken svc0 d0).getD 1 0) ∧
    svcValidateToken svc0 ((createToken svc0 d0).set 1 999) =
      .error .invalidToken :=
  ⟨C8_roundtrip_and_single_mutation_fails.1 svc0 d0,
   ⟨by decide, by decide⟩,
   C8_roundtrip_and_single_mutation_fails.2 svc0 d0 1 999 (by decide)
     (by decide)⟩

/-- `FindOne` by id after `updateStatusMongo`: the found document carries
the new status and timestamp (status updates preserve ids). -/
theorem findById_updateStatusDb (db : Db) (id : UUID) (st : String)
    (now : Int) (u : User) (h : findById db id = some u) :
    findById (updateStatusDb db id st now) id =
      some { u with Status := st, UpdatedAt := now } := by
  induction db with
  | nil => simp [findById] at h
  | cons x rest ih =>
      by_cases hx : x.ID = id
      · rw [findById, if_pos hx] at h
        cases h
        simp [updateStatusDb, findById, hx]
      · rw [findById, if_neg hx] at h
        simpa [updateStatusDb, findById, hx] using ih h

/-! ## Claim C4 -/

/-- C4 counterexample: the claim says every repository mutation
(`Update`, `ChangePassword`, `UpdateStatus`, `Delete`) invalidates
(deletes) the user's cache entry and never (re)writes it from
request-derived data.  At the concrete input — store `[activeUser]`, empty
cache, `Update` with the edited record `updatedUser` — `Update` instead
REWRITES the cache: the call succeeds and leaves
`user:1 ↦ json(updatedUser)` in the cache rather than deleting the key. -/
theorem C4_counterexample_update_rewrites_cache :
    repoUpdate noFailDb noFailCache [activeUser] ⟨[], []⟩ updatedUser =
      .ok ([updatedUser],
        ⟨[(Key.user 1, ⟨.userJSON updatedUser, userCacheTTL⟩)],
         [.setE (Key.user 1)]⟩) :=
  rfl

/-- C4 amended: `ChangePassword`, `UpdateStatus` and `Delete` invalidate
(delete) the cached user entry after the successful store write, but
`Update` refreshes it instead — it rewrites the cache from the updated
in-memory record; the concrete stale-status case still holds: after
`UpdateStatus(id, "blocked")` a subsequent `GetByID(id)` misses the cache
and returns the store-fresh record with status `"blocked"`. -/
theorem C4_mutations_cache_discipline :
    (∀ (db : Db) (s : CacheState) (user : User),
        repoUpdate noFailDb noFailCache db s user =
          .ok (updateUserDb db user,
            ⟨setEntry s.entries (Key.user user.ID)
               ⟨.userJSON user, userCacheTTL⟩,
             s.log ++ [.setE (Key.user user.ID)]⟩)) ∧
    (∀ (db : Db) (s : CacheState) (id : UUID) (pw : PasswordVal) (now : Int),
        ∃ db1 s1, repoChangePassword noFailDb noFailCache db s id pw now =
            .ok (db1, s1) ∧
          lookupEntry s1.entries (Key.user id) = none) ∧
    (∀ (db : Db) (s : CacheState) (id : UUID) (st : String) (now : Int),
        ∃ db1 s1, repoUpdateStatus noFailDb noFailCache db s id st now =
            .ok (db1, s1) ∧
          lookupEntry s1.entries (Key.user id) = none) ∧
    (∀ (db : Db) (s : CacheState) (id : UUID),
        ∃ db1 s1, repoDelete noFailDb noFailCache db s id = .ok (db1, s1) ∧
          lookupEntry s1.entries (Key.user id) = none) ∧
    (∀ (db : Db) (s : CacheState) (id : UUID) (now : Int) (u : User),
        findById db id = some u →
        ∃ db1 s1 s2,
          repoUpdateStatus noFailDb noFailCache db s id "blocked" now =
            .ok (db1, s1) ∧
          repoGetByID noFailDb noFailCache db1 s1 id =
            .ok (some { u with Status := "blocked", UpdatedAt := now }, s2)) := by
  refine ⟨?_, ?_, ?_, ?_, ?_⟩
  · intro db s user
    simp [repoUpdate, cacheSet, noFailDb, noFailCache]
  · intro db s id pw now
    refine ⟨changePasswordDb db id pw now,
      ⟨delEntry s.entries (Key.user id), s.log ++ [.delE (Key.user id)]⟩,
      by simp [repoChangePassword, cacheDelete, noFailDb, noFailCache],
      by simp⟩
  · intro db s id st now
    refine ⟨updateStatusDb db id st now,
      ⟨delEntry s.entries (Key.user id), s.log ++ [.delE (Key.user id)]⟩,
      by simp [repoUpdateStatus, cacheDelete, noFailDb, noFailCache],
      by simp⟩
  · intro db s id
    refine ⟨deleteUserDb db id,
      ⟨delEntry s.entries (Key.user id), s.log ++ [.delE (Key.user id)]⟩,
      by simp [repoDelete, cacheDelete, noFailDb, noFailCache],
      by simp⟩
  · intro db s id now u hu
    refine ⟨updateStatusDb db id "blocked" now,
      ⟨delEntry s.entries (Key.user id), s.log ++ [.delE (Key.user id)]⟩,
      ⟨setEntry (delEntry s.entries (Key.user id)) (Key.user id)
         ⟨.userJSON { u with Status := "blocked", UpdatedAt := now },
          userCacheTTL⟩,
       (s.log ++ [.delE (Key.user id)]) ++ [.setE (Key.user id)]⟩,
      by simp [repoUpdateStatus, cacheDelete, noFailDb, noFailCache], ?_⟩
    simp [repoGetByID, cacheGet, cacheSet, noFailDb, noFailCache,
      findById_updateStatusDb db id "blocked" now u hu]

/-- C4 witness: the stale-status case at the concrete input — block user 1
in store `[activeUser]` with empty cache, then read them back: the read
returns status `"blocked"`. -/
theorem C4_witness :
    findById [activeUser] 1 = some activeUser ∧
    (∃ db1 s1 s2,
      repoUpdateStatus noFailDb noFailCache [activeUser] ⟨[], []⟩ 1 "blocked"
          7 = .ok (db1, s1) ∧
      repoGetByID noFailDb noFailCache db1 s1 1 =
        .ok (some { activeUser with Status := "blocked", UpdatedAt := 7 },
          s2)) :=
  ⟨rfl,
   C4_mutations_cache_discipline.2.2.2.2 [activeUser] ⟨[], []⟩ 1 7 activeUser
     rfl⟩

/-! ## Claim C6 -/

/-- C6 counterexample: the claim says `Login` fails with
`InvalidCredentials` whenever the user's status is not active.  At the
concrete input — store `[inactiveUser]` (status `"inactive"`), correct
password `"pw"` — `authUseCase.Login` succeeds: it performs no status
check. -/
theorem C6_counterexample_inactive_user_logs_in :
    (authLogin noFailDb noFailCache svc0 [inactiveUser] ⟨[], []⟩ "a@x.io"
        "pw" 30 31 0).isOk = true :=
  rfl

/-- C6 amended: `authUseCase.Login` fails with `InvalidCredentials` when
the user is absent or the password hash does not match, but performs no
status check — a user whose status is inactive (or blocked) and whose
credentials are valid logs in successfully.  The status check lives only in
`userUseCase.Authenticate`, which rejects a non-active user with the ad-hoc
error `"user account is not active"` (not `InvalidCredentials`). -/
theorem C6_login_checks_and_status_gap :
    (∀ (svc : TokenService) (db : Db) (s : CacheState)
        (email password : String) (fa fr : UUID) (now : Int),
        findByEmail db email = none →
        authLogin noFailDb noFailCache svc db s email password fa fr now =
          .error .invalidCredentials) ∧
    (∀ (svc : TokenService) (db : Db) (s : CacheState)
        (email password : String) (fa fr : UUID) (now : Int) (u : User),
        findByEmail db email = some u →
        CheckPasswordHash password u.Password = false →
        authLogin noFailDb noFailCache svc db s email password fa fr now =
          .error .invalidCredentials) ∧
    (∀ (db : Db) (email password : String) (u : User),
        findByEmail db email = some u →
        u.Status ≠ "active" →
        Authenticate noFailDb db email password = .error .notActive) ∧
    (∀ (svc : TokenService) (db : Db) (s : CacheState)
        (email password : String) (fa fr : UUID) (now : Int) (u : User),
        findByEmail db email = some u →
        CheckPasswordHash password u.Password = true →
        (authLogin noFailDb noFailCache svc db s email password fa fr
            now).isOk = true) := by
  refine ⟨?_, ?_, ?_, ?_⟩
  · intro svc db s email password fa fr now h
    simp [authLogin, repoGetByEmail, noFailDb, h]
  · intro svc db s email password fa fr now u hu hpw
    simp [authLogin, repoGetByEmail, noFailDb, hu, hpw]
  · intro db email password u hu hst
    simp [Authenticate, repoGetByEmail, noFailDb, hu, hst]
  · intro svc db s email password fa fr now u hu hpw
    simp [authLogin, repoGetByEmail, noFailDb, noFailCache, hu, hpw,
      StoreAccessToken, StoreRefreshToken, storeToken, cacheSet,
      GenerateTokens, Except.isOk, Except.toBool]

/-- C6 witness: the amended theorem's parts at concrete inputs — absent
user, wrong password, inactive user rejected by `Authenticate`, and the
same inactive user logging in through `Login`. -/
theorem C6_witness :
    (findByEmail [inactiveUser] "nobody" = none ∧
      authLogin noFailDb noFailCache svc0 [inactiveUser] ⟨[], []⟩ "nobody"
        "pw" 30 31 0 = .error .invalidCredentials) ∧
    (findByEmail [inactiveUser] "a@x.io" = some inactiveUser ∧
      CheckPasswordHash "wrong" inactiveUser.Password = false ∧
      authLogin noFailDb noFailCache svc0 [inactiveUser] ⟨[], []⟩ "a@x.io"
        "wrong" 30 31 0 = .error .invalidCredentials) ∧
    (inactiveUser.Status ≠ "active" ∧
      Authenticate noFailDb [inactiveUser] "a@x.io" "pw" =
        .error .notActive) ∧
    (CheckPasswordHash "pw" inactiveUser.Password = true ∧
      (authLogin noFailDb noFailCache svc0 [inactiveUser] ⟨[], []⟩ "a@x.io"
          "pw" 30 31 0).isOk = true) :=
  ⟨⟨rfl, C6_login_checks_and_status_gap.1 svc0 [inactiveUser] ⟨[], []⟩
      "nobody" "pw" 30 31 0 rfl⟩,
   ⟨rfl, rfl, C6_login_checks_and_status_gap.2.1 svc0 [inactiveUser]
      ⟨[], []⟩ "a@x.io" "wrong" 30 31 0 inactiveUser rfl rfl⟩,
   ⟨by decide, C6_login_checks_and_status_gap.2.2.1 [inactiveUser] "a@x.io"
      "pw" inactiveUser rfl (by decide)⟩,
   ⟨rfl, C6_login_checks_and_status_gap.2.2.2 svc0 [inactiveUser] ⟨[], []⟩
      "a@x.io" "pw" 30 31 0 inactiveUser rfl rfl⟩⟩

/-! ## Claim C2 -/

/-- C2: for an active user whose email resolves to them and whose password
digest matches, `Login` succeeds (all store operations succeeding, i.e. the
failure-free adapters) and `ValidateToken` on the returned access token
returns exactly that user's identity.  (The model's store has no time
decay, so the not-yet-expired assumption is implicit.) -/
theorem C2_login_then_validate_returns_identity (svc : TokenService)
    (db : Db) (s : CacheState) (email password : String) (fa fr : UUID)
    (now : Int) (u : User)
    (hu : findByEmail db email = some u)
    (_hactive : u.Status = "active")
    (hpw : CheckPasswordHash password u.Password = true) :
    ∃ resp s2,
      authLogin noFailDb noFailCache svc db s email password fa fr now =
        .ok (resp, s2) ∧
      resp.User = u ∧
      authValidateToken noFailCache svc s2 resp.AuthTokens.AccessToken =
        .ok u.ID := by
  refine ⟨⟨u, ⟨createToken svc ⟨fa, u.ID, .access, now + svc.accessDuration⟩,
      createToken svc ⟨fr, u.ID, .refresh, now + svc.refreshDuration⟩,
      now + svc.accessDuration⟩⟩,
    ⟨setEntry (setEntry (setEntry (setEntry s.entries
          (Key.token .access fa)
          ⟨.tokenJSON ⟨fa, u.ID, .access, now + svc.accessDuration⟩,
           svc.accessDuration⟩)
        (Key.userTokens u.ID .access fa) ⟨.one, svc.accessDuration⟩)
       (Key.token .refresh fr)
       ⟨.tokenJSON ⟨fr, u.ID, .refresh, now + svc.refreshDuration⟩,
        svc.refreshDuration⟩)
      (Key.userTokens u.ID .refresh fr) ⟨.one, svc.refreshDuration⟩,
     s.log ++ [.setE (Key.token .access fa),
       .setE (Key.userTokens u.ID .access fa),
       .setE (Key.token .refresh fr),
       .setE (Key.userTokens u.ID .refresh fr)]⟩, ?_, rfl, ?_⟩
  · simp [authLogin, repoGetByEmail, noFailDb, noFailCache, hu, hpw,
      StoreAccessToken, StoreRefreshToken, storeToken, cacheSet,
      GenerateTokens]
  · simp [authValidateToken, svcValidateToken_createToken, GetToken,
      cacheGet, noFailCache]

/-- C2 witness: the concrete active user `activeUser` logging in with
password `"pw"`. -/
theorem C2_witness :
    (findByEmail [activeUser] "a@x.io" = some activeUser ∧
      activeUser.Status = "active" ∧
      CheckPasswordHash "pw" activeUser.Password = true) ∧
    (∃ resp s2,
      authLogin noFailDb noFailCache svc0 [activeUser] ⟨[], []⟩ "a@x.io"
          "pw" 30 31 0 = .ok (resp, s2) ∧
      resp.User = activeUser ∧
      authValidateToken noFailCache svc0 s2 resp.AuthTokens.AccessToken =
        .ok activeUser.ID) :=
  ⟨⟨rfl, rfl, rfl⟩,
   C2_login_then_validate_returns_identity svc0 [activeUser] ⟨[], []⟩
     "a@x.io" "pw" 30 31 0 activeUser rfl rfl rfl⟩

/-! ## Claim C3 -/

/-- C3: for a refresh token issued by the service (details `od`, kind
refresh) whose record is stored under its id, the first `RefreshToken`
call succeeds and rotates it; a second call with the very same token string
afterwards fails with `InvalidRefreshToken`, because the first call removed
the consumed record.  `fr ≠ od.TokenID` is the freshness of the newly drawn
`uuid.New()`. -/
theorem C3_refresh_succeeds_once_then_invalid (svc : TokenService)
    (s : CacheState) (od d : TokenDetails) (ttl : Int)
    (fa fr fa2 fr2 : UUID) (now now2 : Int)
    (hod : od.TokenType = .refresh)
    (hstored : lookupEntry s.entries (Key.token .refresh od.TokenID) =
      some ⟨.tokenJSON d, ttl⟩)
    (hfresh : fr ≠ od.TokenID) :
    ∃ tokens s1,
      authRefreshToken noFailCache svc s (createToken svc od) fa fr now =
        .ok (tokens, s1) ∧
      lookupEntry s1.entries (Key.token .refresh od.TokenID) = none ∧
      authRefreshToken noFailCache svc s1 (createToken svc od) fa2 fr2
          now2 = .error .invalidRefreshToken := by
  have hfr : od.TokenID ≠ fr := Ne.symm hfresh
  have hrun : authRefreshToken noFailCache svc s (createToken svc od) fa fr
      now =
      .ok (⟨createToken svc ⟨fa, od.UserID, .access,
              now + svc.accessDuration⟩,
            createToken svc ⟨fr, od.UserID, .refresh,
              now + svc.refreshDuration⟩,
            now + svc.accessDuration⟩,
        ⟨delEntry (delEntry
            (setEntry (setEntry (setEntry (setEntry s.entries
                  (Key.token .access fa)
                  ⟨.tokenJSON ⟨fa, od.UserID, .access,
                     now + svc.accessDuration⟩, svc.accessDuration⟩)
                (Key.userTokens od.UserID .access fa)
                ⟨.one, svc.accessDuration⟩)
               (Key.token .refresh fr)
               ⟨.tokenJSON ⟨fr, od.UserID, .refresh,
                  now + svc.refreshDuration⟩, svc.refreshDuration⟩)
              (Key.userTokens od.UserID .refresh fr)
              ⟨.one, svc.refreshDuration⟩)
            (Key.token .refresh od.TokenID))
           (Key.userTokens d.UserID .refresh od.TokenID),
         (s.log ++ [.setE (Key.token .access fa),
            .setE (Key.userTokens od.UserID .access fa),
            .setE (Key.token .refresh fr),
            .setE (Key.userTokens od.UserID .refresh fr),
            .delE (Key.token .refresh od.TokenID)]) ++
           [.delE (Key.userTokens d.UserID .refresh od.TokenID)]⟩) := by
    simp [authRefreshToken, svcValidateToken_createToken, hod, GetToken,
      cacheGet, cacheDelete, noFailCache, StoreAccessToken,
      StoreRefreshToken, storeToken, cacheSet, GenerateTokens, DeleteToken,
      hstored, hfr]
  refine ⟨_, _, hrun, ?_, ?_⟩
  · rw [lookupEntry_del_ne _ _ _ (by simp), lookupEntry_del_self]
  · have hgone : lookupEntry
        (delEntry (delEntry
          (setEntry (setEntry (setEntry (setEntry s.entries
                (Key.token .access fa)
                ⟨.tokenJSON ⟨fa, od.UserID, .access,
                   now + svc.accessDuration⟩, svc.accessDuration⟩)
              (Key.userTokens od.UserID .access fa)
              ⟨.one, svc.accessDuration⟩)
             (Key.token .refresh fr)
             ⟨.tokenJSON ⟨fr, od.UserID, .refresh,
                now + svc.refreshDuration⟩, svc.refreshDuration⟩)
            (Key.userTokens od.UserID .refresh fr)
            ⟨.one, svc.refreshDuration⟩)
          (Key.token .refresh od.TokenID))
         (Key.userTokens d.UserID .refresh od.TokenID))
        (Key.token .refresh od.TokenID) = none := by
      rw [lookupEntry_del_ne _ _ _ (by simp), lookupEntry_del_self]
    simp [authRefreshToken, svcValidateToken_createToken, hod, GetToken,
      cacheGet, noFailCache, hgone]

/-- C3 witness: the stored refresh token `rd0` in store `rs0`: refreshing
once succeeds and removes the record, refreshing again with the same string
fails with `InvalidRefreshToken`. -/
theorem C3_witness :
    (rd0.TokenType = .refresh ∧
      lookupEntry rs0.entries (Key.token .refresh rd0.TokenID) =
        some ⟨.tokenJSON rd0, 900⟩ ∧
      (41 : UUID) ≠ rd0.TokenID) ∧
    (∃ tokens s1,
      authRefreshToken noFailCache svc0 rs0 (createToken svc0 rd0) 40 41 0 =
        .ok (tokens, s1) ∧
      lookupEntry s1.entries (Key.token .refresh rd0.TokenID) = none ∧
      authRefreshToken noFailCache svc0 s1 (createToken svc0 rd0) 42 43 1 =
        .error .invalidRefreshToken) :=
  ⟨⟨rfl, rfl, by decide⟩,
   C3_refresh_succeeds_once_then_invalid svc0 rs0 rd0 rd0 900 40 41 42 43 0
     1 rfl rfl (by decide)⟩

/-! ## Claim C7 -/

/-- C7: within a single `RefreshToken` call that reaches rotation, both new
tokens are stored before the old refresh token is revoked, and a failure of
that final revocation is only logged — the call still returns the new pair.
Part 1 (failure-free adapter): the write log appended by the call is the
four `SET`s of the new pair followed by the `DEL`s of the consumed record
— every store of the new pair precedes the revocation.  Part 2 (adapter
whose `DEL` of the consumed record fails): the call still succeeds, its log
contains exactly the four `SET`s and no `DEL`, the new records are present
and the old record is still present (it was never revoked). -/
theorem C7_pair_stored_before_revoke_and_revoke_failure_nonfatal
    (svc : TokenService) (s : CacheState) (od d : TokenDetails) (ttl : Int)
    (fa fr : UUID) (now : Int)
    (hod : od.TokenType = .refresh)
    (hstored : lookupEntry s.entries (Key.token .refresh od.TokenID) =
      some ⟨.tokenJSON d, ttl⟩)
    (hfresh : fr ≠ od.TokenID) :
    (∃ tokens s1,
      authRefreshToken noFailCache svc s (createToken svc od) fa fr now =
        .ok (tokens, s1) ∧
      s1.log = (s.log ++ [.setE (Key.token .access fa),
          .setE (Key.userTokens od.UserID .access fa),
          .setE (Key.token .refresh fr),
          .setE (Key.userTokens od.UserID .refresh fr),
          .delE (Key.token .refresh od.TokenID)]) ++
        [.delE (Key.userTokens d.UserID .refresh od.TokenID)]) ∧
    (∃ tokens s2,
      authRefreshToken (failDeleteOn (Key.token .refresh od.TokenID)) svc s
          (createToken svc od) fa fr now = .ok (tokens, s2) ∧
      s2.log = s.log ++ [.setE (Key.token .access fa),
        .setE (Key.userTokens od.UserID .access fa),
        .setE (Key.token .refresh fr),
        .setE (Key.userTokens od.UserID .refresh fr)] ∧
      lookupEntry s2.entries (Key.token .refresh od.TokenID) =
        some ⟨.tokenJSON d, ttl⟩ ∧
      lookupEntry s2.entries (Key.token .access fa) =
        some ⟨.tokenJSON ⟨fa, od.UserID, .access, now + svc.accessDuration⟩,
          svc.accessDuration⟩ ∧
      lookupEntry s2.entries (Key.token .refresh fr) =
        some ⟨.tokenJSON ⟨fr, od.UserID, .refresh,
          now + svc.refreshDuration⟩, svc.refreshDuration⟩) := by
  have hfr : od.TokenID ≠ fr := Ne.symm hfresh
  constructor
  · refine ⟨⟨createToken svc ⟨fa, od.UserID, .access,
        now + svc.accessDuration⟩,
      createToken svc ⟨fr, od.UserID, .refresh, now + svc.refreshDuration⟩,
      now + svc.accessDuration⟩, ⟨delEntry (delEntry
        (setEntry (setEntry (setEntry (setEntry s.entries
              (Key.token .access fa)
              ⟨.tokenJSON ⟨fa, od.UserID, .access,
                 now + svc.accessDuration⟩, svc.accessDuration⟩)
            (Key.userTokens od.UserID .access fa)
            ⟨.one, svc.accessDuration⟩)
           (Key.token .refresh fr)
           ⟨.tokenJSON ⟨fr, od.UserID, .refresh,
              now + svc.refreshDuration⟩, svc.refreshDuration⟩)
          (Key.userTokens od.UserID .refresh fr)
          ⟨.one, svc.refreshDuration⟩)
        (Key.token .refresh od.TokenID))
       (Key.userTokens d.UserID .refresh od.TokenID),
      (s.log ++ [.setE (Key.token .access fa),
         .setE (Key.userTokens od.UserID .access fa),
         .setE (Key.token .refresh fr),
         .setE (Key.userTokens od.UserID .refresh fr),
         .delE (Key.token .refresh od.TokenID)]) ++
        [.delE (Key.userTokens d.UserID .refresh od.TokenID)]⟩, ?_, rfl⟩
    simp [authRefreshToken, svcValidateToken_createToken, hod, GetToken,
      cacheGet, cacheDelete, noFailCache, StoreAccessToken,
      StoreRefreshToken, storeToken, cacheSet, GenerateTokens, DeleteToken,
      hstored, hfr]
  · refine ⟨⟨createToken svc ⟨fa, od.UserID, .access,
        now + svc.accessDuration⟩,
      createToken svc ⟨fr, od.UserID, .refresh, now + svc.refreshDuration⟩,
      now + svc.accessDuration⟩,
      ⟨setEntry (setEntry (setEntry (setEntry s.entries
          (Key.token .access fa)
          ⟨.tokenJSON ⟨fa, od.UserID, .access, now + svc.accessDuration⟩,
           svc.accessDuration⟩)
        (Key.userTokens od.UserID .access fa) ⟨.one, svc.accessDuration⟩)
       (Key.token .refresh fr)
       ⟨.tokenJSON ⟨fr, od.UserID, .refresh, now + svc.refreshDuration⟩,
        svc.refreshDuration⟩)
      (Key.userTokens od.UserID .refresh fr) ⟨.one, svc.refreshDuration⟩,
      s.log ++ [.setE (Key.token .access fa),
        .setE (Key.userTokens od.UserID .access fa),
        .setE (Key.token .refresh fr),
        .setE (Key.userTokens od.UserID .refresh fr)]⟩, ?_, rfl, ?_, ?_, ?_⟩
    · simp [authRefreshToken, svcValidateToken_createToken, hod, GetToken,
        cacheGet, cacheDelete, failDeleteOn, StoreAccessToken,
        StoreRefreshToken, storeToken, cacheSet, GenerateTokens,
        DeleteToken, hstored, hfr]
    · simp [hstored, hfr]
    · simp [hfr]
    · simp

/-- C7 witness: the stored refresh token `rd0` in `rs0`, fresh ids 40/41 at
time 0 — the failure-free run logs the four stores before the revocation,
and the run whose revocation fails still returns the pair with the old
record intact. -/
theorem C7_witness :
    (rd0.TokenType = .refresh ∧
      lookupEntry rs0.entries (Key.token .refresh rd0.TokenID) =
        some ⟨.tokenJSON rd0, 900⟩ ∧
      (41 : UUID) ≠ rd0.TokenID) ∧
    ((∃ tokens s1,
      authRefreshToken noFailCache svc0 rs0 (createToken svc0 rd0) 40 41 0 =
        .ok (tokens, s1) ∧
      s1.log = (rs0.log ++ [.setE (Key.token .access 40),
          .setE (Key.userTokens 1 .access 40),
          .setE (Key.token .refresh 41),
          .setE (Key.userTokens 1 .refresh 41),
          .delE (Key.token .refresh 20)]) ++
        [.delE (Key.userTokens 1 .refresh 20)]) ∧
    (∃ tokens s2,
      authRefreshToken (failDeleteOn (Key.token .refresh 20)) svc0 rs0
          (createToken svc0 rd0) 40 41 0 = .ok (tokens, s2) ∧
      s2.log = rs0.log ++ [.setE (Key.token .access 40),
        .setE (Key.userTokens 1 .access 40),
        .setE (Key.token .refresh 41),
        .setE (Key.userTokens 1 .refresh 41)] ∧
      lookupEntry s2.entries (Key.token .refresh 20) =
        some ⟨.tokenJSON rd0, 900⟩ ∧
      lookupEntry s2.entries (Key.token .access 40) =
        some ⟨.tokenJSON ⟨40, 1, .access, 0 + svc0.accessDuration⟩,
          svc0.accessDuration⟩ ∧
      lookupEntry s2.entries (Key.token .refresh 41) =
        some ⟨.tokenJSON ⟨41, 1, .refresh, 0 + svc0.refreshDuration⟩,
          svc0.refreshDuration⟩)) :=
  ⟨⟨rfl, rfl, by decide⟩,
   C7_pair_stored_before_revoke_and_revoke_failure_nonfatal svc0 rs0 rd0
     rd0 900 40 41 0 rfl rfl (by decide)⟩

end GoUserApi
